import Mathlib

/-!
Verification development for the adaptive multi-backend AI query routing
gateway implemented in
`courses/L3_Advanced/02_ai_workflow_integration/04_multi_platform_unified_api.py`.

The Python source is heavily padded and contains several syntactic slips
(stray characters, a misspelled local variable `ava_data`/`avg_data`, a
bracket typo in the feature-score normaliser, a `None >= 0` comparison).
The embedding below models the evidently intended semantics of each
construct; every such slip is noted in a comment at the definition that
models it.  Floating point arithmetic is modelled over `ℚ`; Python dicts
with a fixed key set become structures whose optional keys are `Option`
fields; exceptions become `Except`/explicit outcome values.
-/

/-- `QueryPriority` enum (source lines 76-81). -/
inductive QueryPriority where
  | critical
  | high
  | normal
  | batch
deriving DecidableEq

/-- `ResponseFormat` enum (source lines 83-88). -/
inductive ResponseFormat where
  | json
  | stream
  | markdown
  | xml
deriving DecidableEq

/-- `.value` strings of `ResponseFormat`. -/
def responseFormatValue : ResponseFormat → String
  | .json => "json"
  | .stream => "stream"
  | .markdown => "markdown"
  | .xml => "xml"

/-- `.value` strings of `QueryPriority`. -/
def queryPriorityValue : QueryPriority → String
  | .critical => "critical"
  | .high => "high"
  | .normal => "normal"
  | .batch => "batch"

/-- `UnifiedQueryRequest` (source lines 134-144).  `metadata` is modelled as a
string association list; the free-form values only flow into opaque parts of
the adapters. -/
structure UnifiedQueryRequest where
  query : String
  platformPreference : Option String := none
  context : List String := []
  priority : QueryPriority := .normal
  responseFormat : ResponseFormat := .json
  language : String := "zh"
  metadata : List (String × String) := []
  requestTracking : Option String := none
deriving DecidableEq

/-- Metadata dict attached to a `UnifiedQueryResponse` by
`_build_unified_response` (source lines 934 and 948-952). -/
structure ResponseMetadata where
  error : Bool := false
  platformError : Option String := none
  platformMetadata : List (String × String) := []
  rightawayFromCache : Bool := false
  enterpriseClass : Bool := false
deriving DecidableEq

/-- `UnifiedQueryResponse` (source lines 146-160).  The source dataclass also
carries `cost_breakdown` and `timestamp`, which no claim touches; they are
omitted.  (As written, the source dataclass would not even construct: fields
without defaults follow fields with defaults, a slip we do not reproduce.) -/
structure UnifiedQueryResponse where
  request_id : String := ""
  query : String
  answer : String
  platform_used : String
  confidence_score : ℚ := 0
  sources : List String := []
  processing_time_ms : ℤ
  metadata : ResponseMetadata := {}
  next_actions : Option (List String) := none
  user_feedback_invited : Bool := false
deriving DecidableEq

/-- The result dict an adapter's `execute_query` returns.  A key that may be
absent is an `Option` field (`none` = key missing); `error` present marks the
failure dict `{"error": ..., "platform": ...}`. -/
structure PlatformResult where
  platform : String
  answer : Option String := none
  confidence : Option ℚ := none
  sources : Option (List String) := none
  processingTime : Option ℚ := none
  modelUsed : Option String := none
  metadata : Option (List (String × String)) := none
  nextActions : Option (List String) := none
  error : Option String := none
  fallbackEnabled : Option Bool := none
deriving DecidableEq

/-- Association-list lookup, modelling a Python dict lookup (dicts here are
string keyed with fixed insertion order). -/
def assocFind {α : Type} (key : String) : List (String × α) → Option α
  | [] => none
  | (k, v) :: rest => if k = key then some v else assocFind key rest

/-- Does the character list `as` start with `needle`? -/
def charsMatchFront : List Char → List Char → Bool
  | [], _ => true
  | _ :: _, [] => false
  | a :: as, b :: bs => a == b && charsMatchFront as bs

/-- Is `needle` a contiguous sublist of the haystack? -/
def charsHaveSub (needle : List Char) : List Char → Bool
  | [] => needle.isEmpty
  | b :: bs => charsMatchFront needle (b :: bs) || charsHaveSub needle bs

/-- Python's substring test `needle in hay`. -/
def strContains (hay needle : String) : Bool :=
  charsHaveSub needle.data hay.data

/-- `_initialize_quality_matrix` (source lines 465-494): static
capability→affinity table per platform, in source insertion order. -/
def platformQualityMatrix : List (String × List (String × ℚ)) :=
  [("dify",
     [("chat_conversation", 85/100), ("knowledge_base", 88/100),
      ("document_qa", 82/100), ("workflow_automation", 3/4),
      ("multi_language", 9/10), ("enterprise_grade", 78/100)]),
   ("ragflow",
     [("enterprise_document_qa", 92/100), ("hybrid_retrieval", 89/100),
      ("chunk_reranking", 87/100), ("aoi_description", 85/100),
      ("enterprise_security", 93/100), ("scalability", 9/10)]),
   ("n8n",
     [("workflow_automation", 95/100), ("multi_step_processing", 9/10),
      ("webhook_integration", 88/100), ("business_task_layout", 86/100),
      ("notification_systems", 85/100), ("enterprise_integration", 82/100)])]

/-- Keyword table of `_analyze_query_intent` (source lines 533-539). -/
def intentKeywordTable : List (String × List String) :=
  [("knowledge_based", ["知识", "信息", "是什么", "定义", "指导", "解释", "说明", "基于知识库"]),
   ("document_search", ["文档", "资料", "文件", "PDF", "论文", "报告", "手册", "从文档"]),
   ("workflow_automation", ["自动", "流程", "处理", "触发", "安排", "定时", "批次", "工作流"]),
   ("simple_conversation", ["问题", "聊天", "对话", "请问", "如何", "怎么"]),
   ("data_analysis", ["分析", "数据", "报告", "统计", "图表", "指标", "趋势"])]

/-- Python's `str.lower()`, mapped characterwise over the string data (the
structural sibling of `String.toLower`, which is definitionally opaque to
the kernel). -/
def pyLower (s : String) : String :=
  String.mk (s.data.map Char.toLower)

/-- `_analyze_query_intent` (source lines 527-551): lower-case the query,
count keyword hits per intent in table order, keep the first intent whose
count strictly exceeds the best so far; default `general_conversation`. -/
def analyzeQueryIntent (query : String) : String :=
  let queryLower := pyLower query
  (intentKeywordTable.foldl
    (fun best entry =>
      let score := (entry.2.filter (fun k => strContains queryLower k)).length
      if best.2 < score then (entry.1, score) else best)
    ("general_conversation", 0)).1

/-- The two keys of the per-priority requirement dicts that the scoring code
reads (source lines 556-580; the dicts also carry `cold_start_tolerance` and
`concurrent_user_support`, which nothing reads). -/
structure PerformanceRequirements where
  latencySlaMs : ℚ
  availabilityRequirement : ℚ
deriving DecidableEq

/-- `_determine_performance_requirements` (source lines 553-582).  The
`dict.get(..., NORMAL)` default is unreachable: the enum match is total. -/
def performanceRequirements : QueryPriority → PerformanceRequirements
  | .critical => { latencySlaMs := 1000, availabilityRequirement := 999/1000 }
  | .high => { latencySlaMs := 2000, availabilityRequirement := 995/1000 }
  | .normal => { latencySlaMs := 5000, availabilityRequirement := 99/100 }
  | .batch => { latencySlaMs := 30000, availabilityRequirement := 95/100 }

/-- The keys of a `recent_performance_stats` entry that the scoring code
reads; either may be absent (the metrics actually recorded by the gateway
carry neither, so the defaults are the realistic case). -/
structure StatsSnapshot where
  avgResponseTimeMs : Option ℚ := none
  uptimePercentage : Option ℚ := none
deriving DecidableEq

/-- `recent_performance_stats`: platform id → snapshot, absent for platforms
never updated. -/
abbrev PlatformStats := String → Option StatsSnapshot

/-- Stats table of a freshly constructed engine (`recent_performance_stats = {}`,
source line 461). -/
def emptyStats : PlatformStats := fun _ => none

/-- `.get(platform, {})` on the stats dict. -/
def snapshotOf (stats : PlatformStats) (platform : String) : StatsSnapshot :=
  (stats platform).getD {}

/-- Python's `min(a, b)` on two rationals. -/
def ratMin (a b : ℚ) : ℚ := if a ≤ b then a else b

/-- The `(... or 1000)` guarded average response time read by
`_get_performance_match_score` (source line 640): key default 1000, and a
falsy (zero) value is also replaced by 1000. -/
def snapshotAvgRt (stats : PlatformStats) (platform : String) : ℚ :=
  let a := (snapshotOf stats platform).avgResponseTimeMs.getD 1000
  if a = 0 then 1000 else a

/-- Intent → capability list map of `_get_intent_match_score`
(source lines 617-623). -/
def intentCapabilityMap : List (String × List String) :=
  [("knowledge_based", ["knowledge_base", "document_qa"]),
   ("document_search", ["enterprise_document_qa", "hybrid_retrieval"]),
   ("workflow_automation", ["workflow_automation", "multi_step_processing"]),
   ("simple_conversation", ["chat_conversation", "workflow_automation"]),
   ("data_analysis", ["business_task_layout", "workflow_automation"])]

/-- `_get_intent_match_score` (source lines 611-632): sum the platform's
declared affinity over the capabilities mapped to the intent (a capability
the platform does not declare contributes nothing), divide by the number of
mapped capabilities; 0.5 when the intent maps to no capability. -/
def getIntentMatchScore (platform intent : String) : ℚ :=
  let platformCapabilities := (assocFind platform platformQualityMatrix).getD []
  let capabilitiesForIntent := (assocFind intent intentCapabilityMap).getD []
  if capabilitiesForIntent = [] then 1/2
  else
    (capabilitiesForIntent.foldl
      (fun s c => s + ((assocFind c platformCapabilities).getD 0)) 0)
      / (capabilitiesForIntent.length : ℚ)

/-- `_get_performance_match_score` (source lines 634-643).  The source binds
`ava_data` and reads `avg_data` (a slip); modelled as reading the stats
snapshot, the evident intent.  Note only the latency ratio is passed through
`min(1.0, ...)`; the availability ratio is not capped. -/
def getPerformanceMatchScore (platform : String) (req : PerformanceRequirements)
    (stats : PlatformStats) : ℚ :=
  let latencyMatch := ratMin 1 (req.latencySlaMs / snapshotAvgRt stats platform)
  let availabilityMatch :=
    ((snapshotOf stats platform).uptimePercentage.getD (98/100))
      / req.availabilityRequirement
  (latencyMatch + availabilityMatch) / 2

/-- `_get_recent_performance_score` (source lines 645-654). -/
def getRecentPerformanceScore (platform : String) (stats : PlatformStats) : ℚ :=
  let uptimeScore := (snapshotOf stats platform).uptimePercentage.getD (95/100)
  let responseScore := ((snapshotOf stats platform).avgResponseTimeMs.getD 1000) / 1000
  uptimeScore - responseScore * (1/10)

/-- Chinese-language support table of `_get_advanced_features_score`
(source lines 663-668).  The source defines it inside the `language == "zh"`
branch yet uses its size as the normaliser on every path (a slip); the table
is lifted to top level so the normaliser is always in scope. -/
def chineseSupportScore : List (String × ℚ) :=
  [("deepseek", 9/10), ("zhipu", 95/100), ("moonshot", 88/100), ("n8n", 7/10)]

/-- Enterprise-feature table of `_get_advanced_features_score`
(source lines 673-677). -/
def enterpriseFeatureScore : List (String × ℚ) :=
  [("ragflow", 95/100), ("dify", 82/100), ("n8n", 3/4)]

/-- API-quality table of `_get_advanced_features_score` (source lines 681-685). -/
def apiQualityScore : List (String × ℚ) :=
  [("ragflow", 88/100), ("dify", 85/100), ("n8n", 9/10)]

/-- `_get_advanced_features_score` (source lines 656-688): a language bonus
(only for `zh`), an enterprise bonus (only for high/critical priority), an
API-quality bonus, normalised by the size of `chineseSupportScore` (the
source writes that normaliser with a bracket typo). -/
def getAdvancedFeaturesScore (platform : String) (request : UnifiedQueryRequest) : ℚ :=
  let s1 := if request.language = "zh"
    then (assocFind platform chineseSupportScore).getD (6/10) else 0
  let s2 := if request.priority = .high ∨ request.priority = .critical
    then (assocFind platform enterpriseFeatureScore).getD (1/2) else 0
  let s3 := (assocFind platform apiQualityScore).getD (3/4)
  (s1 + s2 + s3) / (chineseSupportScore.length : ℚ)

/-- `_calculate_platform_score` (source lines 584-609): the 0.4/0.3/0.2/0.1
weighted combination of the four component scores. -/
def calculatePlatformScore (platform intent : String) (req : PerformanceRequirements)
    (stats : PlatformStats) (request : UnifiedQueryRequest) : ℚ :=
  let intentMatchScore := getIntentMatchScore platform intent
  let performanceScore := getPerformanceMatchScore platform req stats
  let recentPerformanceScore := getRecentPerformanceScore platform stats
  let advancedFeaturesScore := getAdvancedFeaturesScore platform request
  intentMatchScore * (4/10) + performanceScore * (3/10)
    + recentPerformanceScore * (2/10) + advancedFeaturesScore * (1/10)

/-- Iteration order of `platform_quality_matrix` (source line 512), which is
also the tie-break order of `max(platform_scores, key=...)`. -/
def platformOrder : List String := ["dify", "ragflow", "n8n"]

/-- Python's `max(..., key=...)`: keep the current best, replace it only on a
strictly greater key, so ties resolve to the earliest element. -/
def argmaxFirst (best : String × ℚ) : List (String × ℚ) → String × ℚ
  | [] => best
  | x :: rest => argmaxFirst (if best.2 < x.2 then x else best) rest

/-- `select_best_platform` (source lines 500-525): classify the intent, build
the per-platform score table, return the first platform attaining the maximal
score.  The request's `platform_preference` field is never consulted. -/
def selectBestPlatform (request : UnifiedQueryRequest) (stats : PlatformStats) : String :=
  let intent := analyzeQueryIntent request.query
  let req := performanceRequirements request.priority
  match platformOrder.map (fun p => (p, calculatePlatformScore p intent req stats request)) with
  | [] => ""
  | x :: rest => (argmaxFirst x rest).1

/-- One entry of `usage_metrics_history`: the dict assembled by the gateway's
`update_performance_metrics` (source lines 961-977) plus the timestamp added
by the engine (source lines 701-704). -/
structure PerfMetrics where
  platform : String := ""
  timestamp : String := ""
  processingTime : ℚ := 0
  success : Bool := true
  confidence : ℚ := 0
  fallbackEnabled : Bool := false
deriving DecidableEq

/-- History maintenance of `EnterpriseDecisionEngine.update_performance_metrics`
(source lines 690-710): append the new record, then, when the list exceeds
100 entries, keep only the trailing 100 (`history[-100:]`). -/
def updateMetricsHistory (history : List PerfMetrics) (entry : PerfMetrics) :
    List PerfMetrics :=
  let h := history ++ [entry]
  if 100 < h.length then h.drop (h.length - 100) else h

/-- Parsed JSON body of a successful Dify HTTP call: the keys
`DifyPlatformAdapter.execute_query` reads from it (source lines 234-245).
`confidenceMeta` models the nested `result.get("metadata", {}).get("confidence", ...)`. -/
structure DifyRaw where
  answer : Option String := none
  confidenceMeta : Option ℚ := none
  retrievalResults : List String := []
  latency : Option ℚ := none
  model : Option String := none
  metadataKV : List (String × String) := []
deriving DecidableEq

/-- `DifyPlatformAdapter.execute_query` (source lines 202-249).  The whole
body sits in `try`; an `Except.error` input is any exception raised while
contacting the backend, which the `except` clause converts into the
`{"error": ..., "platform": "dify"}` dict.  The wall-clock fallback for
`processing_time` is not modelled. -/
def difyExecuteQuery (outcome : Except String DifyRaw) : PlatformResult :=
  match outcome with
  | .error e => { platform := "dify", error := some e }
  | .ok r =>
    { platform := "dify",
      answer := some (r.answer.getD ""),
      confidence := some (r.confidenceMeta.getD (3/4)),
      sources := some r.retrievalResults,
      processingTime := r.latency,
      modelUsed := some (r.model.getD "glm-4"),
      metadata := some r.metadataKV }

/-- Parsed retrieval result of a successful RAGFlow HTTP call: the chunk
scores are all `_generate_answer_from_ragflow` reads (source lines 331-353;
`chunk.get("score", 0.0)`).  Chunk payloads beyond the score are opaque. -/
structure RagflowRaw where
  chunkScores : List ℚ := []
deriving DecidableEq

/-- `_generate_answer_from_ragflow` (source lines 331-353): empty retrieval
gives the fixed no-result answer with confidence 0, otherwise a summary
answer whose confidence is the mean chunk score. -/
def ragflowGenerateAnswer (chunkScores : List ℚ) : String × ℚ :=
  if chunkScores = [] then
    ("根据企业知识库检索，未找到相关信息。", 0)
  else
    ("基于企业知识库检索到 " ++ toString chunkScores.length ++ " 个相关文档，主要内容涵盖了您的查询：...",
     (chunkScores.foldl (· + ·) 0) / (chunkScores.length : ℚ))

/-- `RAGFlowPlatformAdapter.execute_query` (source lines 283-329): on any
exception the `except` clause returns `{"error": ..., "platform": "ragflow"}`;
otherwise the retrieval result is turned into an answer dict (no `error`
key).  The simulated processing-time default is not modelled. -/
def ragflowExecuteQuery (outcome : Except String RagflowRaw) : PlatformResult :=
  match outcome with
  | .error e => { platform := "ragflow", error := some e }
  | .ok r =>
    let generated := ragflowGenerateAnswer r.chunkScores
    { platform := "ragflow",
      answer := some generated.1,
      confidence := some generated.2,
      sources := some [],
      modelUsed := some "ragflow" }

/-- Result of `_execute_enterprise_workflow` as read by
`N8NPlatformAdapter.execute_query` (source lines 396-408).  Its inner
`try`/`except` already replaces HTTP failures with a simulated dict, so a
raw value is always available unless the outer body raised earlier. -/
structure N8nRaw where
  finalOutput : Option String := none
  nextActions : List String := []
  stepsExecuted : Option Nat := none
  processingTime : Option ℚ := none
deriving DecidableEq

/-- `N8NPlatformAdapter.execute_query` (source lines 376-412).  Everything,
including the `self.client.config...` endpoint lookup (which would itself
raise `AttributeError`: the adapter has no `client`), sits inside `try`; any
exception becomes `{"error": ..., "platform": "n8n"}`. -/
def n8nExecuteQuery (outcome : Except String N8nRaw) : PlatformResult :=
  match outcome with
  | .error e => { platform := "n8n", error := some e }
  | .ok r =>
    { platform := "n8n",
      answer := some (r.finalOutput.getD ""),
      nextActions := some r.nextActions,
      processingTime := r.processingTime,
      modelUsed := some "enterprise_pipeline" }

/-- Platforms that receive an adapter in `_initialize_platform_adapters`
(source lines 734-751): all other enum members map to `None` and are
filtered out. -/
def registeredPlatforms : List String := ["dify", "ragflow", "n8n"]

/-- `_get_fallback_platform_order` (source lines 903-915). -/
def fallbackPlatformOrder (failedPlatform : String) : List String :=
  (assocFind failedPlatform
    [("dify", ["ragflow", "n8n", "langflow"]),
     ("ragflow", ["dify", "n8n", "langflow"]),
     ("n8n", ["dify", "ragflow", "langflow"]),
     ("langflow", ["dify", "ragflow", "n8n"]),
     ("flowise", ["dify", "ragflow", "langflow"])]).getD ["dify", "ragflow", "n8n"]

/-- Outcome of `_execute_platform_query`/`_failover_to_alternative_platform`:
a served result (with the `fallback_enabled` tag), a raised `HTTPException`
with its status code, or the Python recursion limit (modelled as fuel
exhaustion). -/
inductive DispatchResult where
  | success (platform : String) (fallbackFlag : Bool)
  | httpExn (status : Nat)
  | recursionExn
deriving DecidableEq

/-- The `for fallback_platform in fallback_order` loop of
`_failover_to_alternative_platform` (source lines 884-901): try each
candidate with the supplied executor, return the first success tagged
`fallback_enabled=True`, swallow every exception (`HTTPException` and
`RecursionError` included) and continue; when the list is exhausted raise
HTTP 503 ("所有AI平台均不可用") with no payload about the attempts.  The
second component is the ghost list of platforms whose adapter was invoked. -/
def failoverLoopWith (tryExec : String → DispatchResult × List String) :
    List String → DispatchResult × List String
  | [] => (.httpExn 503, [])
  | q :: rest =>
    let r := tryExec q
    match r.1 with
    | .success sp _ => (.success sp true, r.2)
    | _ =>
      let r2 := failoverLoopWith tryExec rest
      (r2.1, r.2 ++ r2.2)

/-- `_execute_platform_query` (source lines 847-874) with
`fault_tolerance_enabled` (the config default): an unregistered platform
raises HTTP 400 before any attempt; otherwise the adapter is invoked
(recorded in the ghost attempt list), and if that raises (`fails p`), control
moves to `_failover_to_alternative_platform`, whose loop re-enters this very
function on each candidate — mutual recursion, modelled with a fuel bound
standing for Python's recursion limit.  `fails p` abstracts "the adapter call
for `p` raises an exception". -/
def execPlatformQuery (fails : String → Bool) : Nat → String → DispatchResult × List String
  | 0, _ => (.recursionExn, [])
  | fuel + 1, p =>
    if registeredPlatforms.contains p then
      if fails p then
        let r := failoverLoopWith (fun q => execPlatformQuery fails fuel q)
          ((fallbackPlatformOrder p).filter (fun q => !(q == p)))
        (r.1, p :: r.2)
      else (.success p false, [p])
    else (.httpExn 400, [])

/-- Did dispatch serve a result? -/
def isDispatchSuccess : DispatchResult → Bool
  | .success _ _ => true
  | _ => false

/-- `_build_unified_response` (source lines 917-955).  The error branch is
taken exactly when the platform result dict has an `error` key.  In the
success branch the source passes a `model_used` keyword the dataclass does
not have and a corrupted positional `metadata.get("next_actions", [])`
(slips, noted not reproduced); the fields the dataclass does have are
modelled. -/
def buildUnifiedResponse (request : UnifiedQueryRequest) (platformUsed : String)
    (result : PlatformResult) (requestId : String) (processingTimeMs : ℤ) :
    UnifiedQueryResponse :=
  match result.error with
  | some err =>
    { request_id := requestId,
      query := request.query,
      answer := "AI处理时遇到错误: " ++ err,
      platform_used := platformUsed,
      confidence_score := 0,
      sources := [],
      processing_time_ms := processingTimeMs,
      metadata := { error := true, platformError := some err },
      next_actions := some ["重试请求", "联系技术支持"] }
  | none =>
    { request_id := requestId,
      query := request.query,
      answer := result.answer.getD "",
      platform_used := platformUsed,
      confidence_score := result.confidence.getD 0,
      sources := result.sources.getD [],
      processing_time_ms := processingTimeMs,
      metadata := { error := false,
                    platformMetadata := result.metadata.getD [],
                    rightawayFromCache := false,
                    enterpriseClass := true },
      next_actions := some (result.nextActions.getD []),
      user_feedback_invited := decide (result.confidence.getD 0 < 1/2) }

/-- Serialisation of the context list, modelling
`json.dumps(request.context, sort_keys=True)` on a list of strings
(source line 1072); the exact escaping is immaterial to the key theorems,
which use it only congruently. -/
def jsonDumpStringList (l : List String) : String :=
  "[" ++ String.intercalate ", " (l.map (fun s => "\x22" ++ s ++ "\x22")) ++ "]"

/-- The `"|".join(key_parts)` string hashed by
`RedisCacheManager._generate_cache_key` (source lines 1065-1078): query,
language, response-format value, priority value, and the context JSON
(empty string for a falsy — empty — context). -/
def redisKeyData (r : UnifiedQueryRequest) : String :=
  String.intercalate "|"
    [r.query, r.language, responseFormatValue r.responseFormat,
     queryPriorityValue r.priority,
     if r.context = [] then "" else jsonDumpStringList r.context]

/-- The full Redis cache key: the fixed namespace plus a digest of the
joined key data.  `digest` abstracts the deterministic
`sha256(...).hexdigest()[:24]`. -/
def redisCacheKey (digest : String → String) (r : UnifiedQueryRequest) : String :=
  "ai_unified_response:" ++ digest (redisKeyData r)

/-- The data `CacheToolsManager._generate_cache_key` hashes
(source lines 1138-1140): `hash(str((query, language, response_format)))` —
only these three components; priority and context never enter the key. -/
def cacheToolsKeyData (r : UnifiedQueryRequest) : String × String × String :=
  (r.query, r.language, responseFormatValue r.responseFormat)

/-- The data `SimpleCacheManager._generate_cache_key` hashes
(source lines 1176-1178): `hash(str(request))` — the entire request object,
metadata and all. -/
def simpleKeyData (r : UnifiedQueryRequest) : UnifiedQueryRequest := r

/-- Outcome of the underlying cache store read inside
`get_cached_response`: a stored response, a miss, or a raised store error. -/
inductive CacheReadOutcome where
  | hit (resp : UnifiedQueryResponse)
  | miss
  | err (msg : String)
deriving DecidableEq

/-- `get_cached_response` of the cache managers (e.g. source lines
1080-1099): the store access sits in `try`/`except`; a store failure is
logged and the function returns `None`, indistinguishable from a miss. -/
def getCachedResponse : CacheReadOutcome → Option UnifiedQueryResponse
  | .hit r => some r
  | .miss => none
  | .err _ => none

/-- `cache_response` of the cache managers (e.g. source lines 1101-1128):
the store write sits in `try`/`except`; a failing write is logged and
swallowed, so the caller observes nothing either way. -/
def cacheResponseCaught : Except String Unit → Unit
  | .ok _ => ()
  | .error _ => ()

/-- One per-platform entry of `EnterpriseRateLimiter.platform_limits`
(source lines 1217-1223). -/
structure PlatformRateInfo where
  currentRequests : Nat
  lastReset : Nat
  maxLimit : Nat
  windowSeconds : Nat
deriving DecidableEq

/-- The window-reset step of `is_request_allowed` (source lines 1234-1236):
once `now` passes `last_reset + window_seconds` the counter restarts. -/
def rateWindowReset (now : Nat) (info : PlatformRateInfo) : PlatformRateInfo :=
  if info.lastReset + info.windowSeconds ≤ now then
    { info with currentRequests := 0, lastReset := now }
  else info

/-- `EnterpriseRateLimiter.is_request_allowed` (source lines 1227-1246):
after the reset check, a counter at or above `max_limit` is rejected
immediately (no waiting of any kind); otherwise the counter is bumped and
the request admitted.  Priority plays no role here. -/
def isRequestAllowed (now : Nat) (info : PlatformRateInfo) : Bool × PlatformRateInfo :=
  let i := rateWindowReset now info
  if i.maxLimit ≤ i.currentRequests then (false, i)
  else (true, { i with currentRequests := i.currentRequests + 1 })

/-- Queue capacities of `EnterpriseQoSManager.priority_queues`
(source lines 1252-1257). -/
def priorityQueueMaxsize : QueryPriority → Nat
  | .critical => 100
  | .high => 200
  | .normal => 500
  | .batch => 1000

/-- `EnterpriseQoSManager.handle_priority` awaits
`priority_queues[priority].put(request)` (source lines 1261-1264):
`asyncio.Queue.put` suspends the caller whenever the queue already holds
`maxsize` items.  (The source then compares the `None` returned by `put`
with `0`, a slip that would raise; the blocking behaviour modelled here
happens before it.) -/
def qosQueuePutBlocks (qsize maxsize : Nat) : Bool :=
  maxsize ≤ qsize

/-- The pipeline stages of `process_unified_query` in source order
(source lines 773-830). -/
inductive Stage where
  | validate
  | rateLimit
  | cacheLookup
  | decision
  | qos
  | dispatch
  | cacheWrite
  | metricsUpdate
deriving DecidableEq

/-- The stage sequence of a request that runs the whole pipeline. -/
def fullPipelineStages : List Stage :=
  [.validate, .rateLimit, .cacheLookup, .decision, .qos, .dispatch,
   .cacheWrite, .metricsUpdate]

/-- Environment of one `process_unified_query` run: the request plus the
outcome of every effectful collaborator, in the role the code gives it. -/
structure GatewayOracle where
  request : UnifiedQueryRequest
  stats : PlatformStats
  validationOk : Bool
  rateAllowed : Bool
  cacheRead : CacheReadOutcome
  qosBlocks : Bool
  dispatchOutcome : Except Nat PlatformResult
  cacheWriteOutcome : Except String Unit
  requestId : String
  processingTimeMs : ℤ

/-- What `process_unified_query` does for the caller. -/
inductive GatewayOutcome where
  | httpError (status : Nat)
  | cachedResponse (resp : UnifiedQueryResponse)
  | blockedOnQos
  | response (resp : UnifiedQueryResponse)
deriving DecidableEq

/-- Is the outcome a response served from the cache? -/
def isCachedOutcome : GatewayOutcome → Bool
  | .cachedResponse _ => true
  | _ => false

/-- `process_unified_query` (source lines 773-830) as a trace-producing
function: step 1 validation (failure raises HTTP 400); step 2 rate-limiter
admission (denial raises HTTP 429); step 3 cache lookup (a stored response
returns at once, tagged as a cache hit — the source's dict-style
`cached_response["cache_hit"] = True` on a dataclass is a slip, the tag is
the `cachedResponse` outcome); step 4 decision-engine selection; step 5 QoS
queueing (which can block, see `qosQueuePutBlocks`); step 6 dispatch
(a raised `HTTPException` propagates with its status); steps 7-9 response
building, best-effort cache write, metrics update.  The first component is
the ordered list of stages the run executed. -/
def processUnifiedQuery (o : GatewayOracle) : List Stage × GatewayOutcome :=
  if o.validationOk = false then ([.validate], .httpError 400)
  else if o.rateAllowed = false then ([.validate, .rateLimit], .httpError 429)
  else
    match getCachedResponse o.cacheRead with
    | some resp => ([.validate, .rateLimit, .cacheLookup], .cachedResponse resp)
    | none =>
      let platform := selectBestPlatform o.request o.stats
      if o.qosBlocks then
        ([.validate, .rateLimit, .cacheLookup, .decision, .qos], .blockedOnQos)
      else
        match o.dispatchOutcome with
        | .error code =>
          ([.validate, .rateLimit, .cacheLookup, .decision, .qos, .dispatch],
           .httpError code)
        | .ok result =>
          let resp := buildUnifiedResponse o.request platform result
            o.requestId o.processingTimeMs
          let _ := cacheResponseCaught o.cacheWriteOutcome
          (fullPipelineStages, .response resp)

/-- Python's `max(key=...)` keeps the running best and every listed element
below or at the final best, and the final best is the seed or a listed
element. -/
theorem argmaxFirst_spec (l : List (String × ℚ)) :
    ∀ x : String × ℚ,
      (argmaxFirst x l = x ∨ argmaxFirst x l ∈ l)
      ∧ x.2 ≤ (argmaxFirst x l).2
      ∧ ∀ y ∈ l, y.2 ≤ (argmaxFirst x l).2 := by
  induction l with
  | nil =>
    intro x
    exact ⟨Or.inl rfl, le_refl _, fun y hy => absurd hy (List.not_mem_nil y)⟩
  | cons z rest ih =>
    intro x
    simp only [argmaxFirst]
    by_cases h : x.2 < z.2
    · rw [if_pos h]
      obtain ⟨hmem, hinit, hall⟩ := ih z
      refine ⟨?_, le_trans (le_of_lt h) hinit, ?_⟩
      · rcases hmem with h1 | h1
        · right; rw [h1]; exact List.mem_cons_self _ _
        · right; exact List.mem_cons_of_mem _ h1
      · intro y hy
        rcases List.mem_cons.mp hy with h1 | h1
        · rw [h1]; exact hinit
        · exact hall y h1
    · rw [if_neg h]
      obtain ⟨hmem, hinit, hall⟩ := ih x
      refine ⟨?_, hinit, ?_⟩
      · rcases hmem with h1 | h1
        · exact Or.inl h1
        · right; exact List.mem_cons_of_mem _ h1
      · intro y hy
        rcases List.mem_cons.mp hy with h1 | h1
        · rw [h1]; exact le_trans (not_lt.mp h) hinit
        · exact hall y h1

/-- Appending to a nonempty string never yields the empty string. -/
theorem stringAppend_ne_empty (a b : String) (h : a.data ≠ []) : a ++ b ≠ "" := by
  cases a with
  | mk la =>
    cases b with
    | mk lb =>
      intro hc
      have h2 : la ++ lb = ([] : List Char) := congrArg String.data hc
      rw [List.append_eq_nil] at h2
      exact h h2.1

/-- The failover loop cannot succeed when no candidate execution succeeds. -/
theorem failoverLoopWith_noSuccess (tryExec : String → DispatchResult × List String)
    (h : ∀ q, isDispatchSuccess (tryExec q).1 = false) :
    ∀ l, isDispatchSuccess (failoverLoopWith tryExec l).1 = false := by
  intro l
  induction l with
  | nil => rfl
  | cons q rest ih =>
    have hq := h q
    simp only [failoverLoopWith]
    cases hmatch : (tryExec q).1 with
    | success sp fb =>
      rw [hmatch] at hq
      simp [isDispatchSuccess] at hq
    | httpExn s => exact ih
    | recursionExn => exact ih

/-- When every registered platform's adapter call raises, dispatch never
succeeds, at any recursion depth and from any starting platform. -/
theorem execPlatformQuery_noSuccess (fails : String → Bool)
    (hfail : ∀ q, registeredPlatforms.contains q = true → fails q = true) :
    ∀ (fuel : Nat) (p : String),
      isDispatchSuccess (execPlatformQuery fails fuel p).1 = false := by
  intro fuel
  induction fuel with
  | zero => intro p; rfl
  | succ n ih =>
    intro p
    simp only [execPlatformQuery]
    by_cases hr : registeredPlatforms.contains p = true
    · rw [if_pos hr, if_pos (hfail p hr)]
      exact failoverLoopWith_noSuccess _ (fun q => ih q) _
    · rw [if_neg hr]; rfl

/-- C1 (amended): the DecisionEngine score is exactly the weighted sum
0.4·intentMatch + 0.3·performanceFit + 0.2·recentReliability +
0.1·featureBonus; intentMatch is 0.5 whenever the classified intent maps to
no capability (and otherwise the declared-affinity sum over the mapped
capabilities divided by their number, an undeclared capability counting 0);
and within performanceFit only the latency-SLA ratio is capped at 1.0 — the
availability ratio, and hence performanceFit itself, is not (see the
counterexample). -/
theorem C1_score_formula_amended :
    ∀ (platform intent : String) (req : PerformanceRequirements)
      (stats : PlatformStats) (request : UnifiedQueryRequest),
      calculatePlatformScore platform intent req stats request
        = (4/10) * getIntentMatchScore platform intent
          + (3/10) * getPerformanceMatchScore platform req stats
          + (2/10) * getRecentPerformanceScore platform stats
          + (1/10) * getAdvancedFeaturesScore platform request
      ∧ ((assocFind intent intentCapabilityMap).getD [] = [] →
          getIntentMatchScore platform intent = 1/2)
      ∧ ratMin 1 (req.latencySlaMs / snapshotAvgRt stats platform) ≤ 1 := by
  intro platform intent req stats request
  refine ⟨?_, ?_, ?_⟩
  · simp only [calculatePlatformScore]; ring
  · intro h
    simp [getIntentMatchScore, h]
  · unfold ratMin
    by_cases h : (1:ℚ) ≤ req.latencySlaMs / snapshotAvgRt stats platform
    · rw [if_pos h]
    · rw [if_neg h]
      exact le_of_lt (not_le.mp h)

/-- C1 counterexample: for batch priority with an empty metrics table the
performance-fit component evaluates to 193/190, strictly above 1 — the
claimed overall cap at 1.0 does not hold (only the latency ratio is passed
through `min(1.0, ...)`). -/
theorem C1_performance_fit_uncapped :
    getPerformanceMatchScore "dify" (performanceRequirements QueryPriority.batch) emptyStats
      = 193/190
    ∧ (1:ℚ) < 193/190 := by
  constructor
  · simp [getPerformanceMatchScore, performanceRequirements, emptyStats, snapshotOf,
      snapshotAvgRt, ratMin]
    norm_num
  · norm_num

/-- C1 witness: the amended theorem applied to the default intent, whose
capability list is empty, gives the 0.5 fallback. -/
theorem C1_score_formula_witness :
    getIntentMatchScore "ragflow" "general_conversation" = 1/2 :=
  (C1_score_formula_amended "ragflow" "general_conversation"
    (performanceRequirements QueryPriority.normal) emptyStats
    { query := "测试" }).2.1 (by decide)

/-- C2 (amended): `select_best_platform` never consults the request's
backend-preference hint — its result is invariant under changing
`platformPreference` — and the platform it returns always carries the
maximal computed score over the registered scoring table. -/
theorem C2_preference_ignored_amended :
    ∀ (r : UnifiedQueryRequest) (stats : PlatformStats) (pref : Option String),
      selectBestPlatform { r with platformPreference := pref } stats
        = selectBestPlatform r stats
      ∧ ∀ p ∈ platformOrder,
          calculatePlatformScore p (analyzeQueryIntent r.query)
              (performanceRequirements r.priority) stats r
            ≤ calculatePlatformScore (selectBestPlatform r stats)
                (analyzeQueryIntent r.query) (performanceRequirements r.priority) stats r := by
  intro r stats pref
  constructor
  · rfl
  · intro p hp
    have hform : selectBestPlatform r stats =
        (argmaxFirst
          ("dify", calculatePlatformScore "dify" (analyzeQueryIntent r.query)
            (performanceRequirements r.priority) stats r)
          [("ragflow", calculatePlatformScore "ragflow" (analyzeQueryIntent r.query)
              (performanceRequirements r.priority) stats r),
           ("n8n", calculatePlatformScore "n8n" (analyzeQueryIntent r.query)
              (performanceRequirements r.priority) stats r)]).1 := rfl
    obtain ⟨hmem, hinit, hall⟩ := argmaxFirst_spec
      [("ragflow", calculatePlatformScore "ragflow" (analyzeQueryIntent r.query)
          (performanceRequirements r.priority) stats r),
       ("n8n", calculatePlatformScore "n8n" (analyzeQueryIntent r.query)
          (performanceRequirements r.priority) stats r)]
      ("dify", calculatePlatformScore "dify" (analyzeQueryIntent r.query)
        (performanceRequirements r.priority) stats r)
    have hsel : calculatePlatformScore (selectBestPlatform r stats)
        (analyzeQueryIntent r.query) (performanceRequirements r.priority) stats r
        = (argmaxFirst
            ("dify", calculatePlatformScore "dify" (analyzeQueryIntent r.query)
              (performanceRequirements r.priority) stats r)
            [("ragflow", calculatePlatformScore "ragflow" (analyzeQueryIntent r.query)
                (performanceRequirements r.priority) stats r),
             ("n8n", calculatePlatformScore "n8n" (analyzeQueryIntent r.query)
                (performanceRequirements r.priority) stats r)]).2 := by
      rw [hform]
      rcases hmem with h1 | h1
      · rw [h1]
      · rcases List.mem_cons.mp h1 with h2 | h2
        · rw [h2]
        · rw [List.mem_singleton.mp h2]
    rw [hsel]
    rcases List.mem_cons.mp hp with h3 | h3
    · subst h3; exact hinit
    · rcases List.mem_cons.mp h3 with h4 | h4
      · subst h4; exact hall _ (List.mem_cons_self _ _)
      · rw [List.mem_singleton.mp h4]
        exact hall _ (List.mem_cons_of_mem _ (List.mem_singleton.mpr rfl))

/-- Concrete request exercising the preference override claim: the hint
names the registered platform `dify`, yet the engine ranks `n8n` first. -/
def c2Request : UnifiedQueryRequest :=
  { query := "工作流", platformPreference := some "dify" }

/-- C2 counterexample: a request whose preference hint names the registered
backend `dify` is nevertheless routed to `n8n`: the hint never reaches the
ranking. -/
theorem C2_preference_not_rank_one :
    c2Request.platformPreference = some "dify"
    ∧ registeredPlatforms.contains "dify" = true
    ∧ selectBestPlatform c2Request emptyStats = "n8n" := by
  refine ⟨rfl, by decide, ?_⟩
  have hInt : analyzeQueryIntent "工作流" = "workflow_automation" := by decide
  have hiD : getIntentMatchScore "dify" "workflow_automation" = 3/8 := by
    simp [getIntentMatchScore, assocFind, platformQualityMatrix, intentCapabilityMap]
    norm_num
  have hiR : getIntentMatchScore "ragflow" "workflow_automation" = 0 := by
    simp [getIntentMatchScore, assocFind, platformQualityMatrix, intentCapabilityMap]
  have hiN : getIntentMatchScore "n8n" "workflow_automation" = 37/40 := by
    simp [getIntentMatchScore, assocFind, platformQualityMatrix, intentCapabilityMap]
    norm_num
  have hpD : getPerformanceMatchScore "dify" (performanceRequirements QueryPriority.normal)
      emptyStats = 197/198 := by
    simp [getPerformanceMatchScore, performanceRequirements, emptyStats, snapshotOf,
      snapshotAvgRt, ratMin]
    norm_num
  have hpR : getPerformanceMatchScore "ragflow" (performanceRequirements QueryPriority.normal)
      emptyStats = 197/198 := by
    simp [getPerformanceMatchScore, performanceRequirements, emptyStats, snapshotOf,
      snapshotAvgRt, ratMin]
    norm_num
  have hpN : getPerformanceMatchScore "n8n" (performanceRequirements QueryPriority.normal)
      emptyStats = 197/198 := by
    simp [getPerformanceMatchScore, performanceRequirements, emptyStats, snapshotOf,
      snapshotAvgRt, ratMin]
    norm_num
  have hrD : getRecentPerformanceScore "dify" emptyStats = 17/20 := by
    simp [getRecentPerformanceScore, emptyStats, snapshotOf]
    norm_num
  have hrR : getRecentPerformanceScore "ragflow" emptyStats = 17/20 := by
    simp [getRecentPerformanceScore, emptyStats, snapshotOf]
    norm_num
  have hrN : getRecentPerformanceScore "n8n" emptyStats = 17/20 := by
    simp [getRecentPerformanceScore, emptyStats, snapshotOf]
    norm_num
  have haD : getAdvancedFeaturesScore "dify" c2Request = 29/80 := by
    simp [getAdvancedFeaturesScore, assocFind, chineseSupportScore, enterpriseFeatureScore,
      apiQualityScore, c2Request]
    norm_num
  have haR : getAdvancedFeaturesScore "ragflow" c2Request = 37/100 := by
    simp [getAdvancedFeaturesScore, assocFind, chineseSupportScore, enterpriseFeatureScore,
      apiQualityScore, c2Request]
    norm_num
  have haN : getAdvancedFeaturesScore "n8n" c2Request = 2/5 := by
    simp [getAdvancedFeaturesScore, assocFind, chineseSupportScore, enterpriseFeatureScore,
      apiQualityScore, c2Request]
    norm_num
  have hsD : calculatePlatformScore "dify" "workflow_automation"
      (performanceRequirements QueryPriority.normal) emptyStats c2Request = 3457/5280 := by
    simp only [calculatePlatformScore]
    rw [hiD, hpD, hrD, haD]
    norm_num
  have hsR : calculatePlatformScore "ragflow" "workflow_automation"
      (performanceRequirements QueryPriority.normal) emptyStats c2Request = 16681/33000 := by
    simp only [calculatePlatformScore]
    rw [hiR, hpR, hrR, haR]
    norm_num
  have hsN : calculatePlatformScore "n8n" "workflow_automation"
      (performanceRequirements QueryPriority.normal) emptyStats c2Request = 2899/3300 := by
    simp only [calculatePlatformScore]
    rw [hiN, hpN, hrN, haN]
    norm_num
  have hform : selectBestPlatform c2Request emptyStats =
      (argmaxFirst
        ("dify", calculatePlatformScore "dify" (analyzeQueryIntent "工作流")
          (performanceRequirements QueryPriority.normal) emptyStats c2Request)
        [("ragflow", calculatePlatformScore "ragflow" (analyzeQueryIntent "工作流")
            (performanceRequirements QueryPriority.normal) emptyStats c2Request),
         ("n8n", calculatePlatformScore "n8n" (analyzeQueryIntent "工作流")
            (performanceRequirements QueryPriority.normal) emptyStats c2Request)]).1 := rfl
  rw [hform, hInt, hsD, hsR, hsN]
  norm_num [argmaxFirst]

/-- C2 witness: the amended theorem applied to the concrete request: changing
the preference hint does not change the selection, and `dify`'s score never
exceeds the selected platform's. -/
theorem C2_preference_ignored_witness :
    selectBestPlatform { c2Request with platformPreference := some "ragflow" } emptyStats
      = selectBestPlatform c2Request emptyStats
    ∧ calculatePlatformScore "dify" (analyzeQueryIntent c2Request.query)
        (performanceRequirements c2Request.priority) emptyStats c2Request
      ≤ calculatePlatformScore (selectBestPlatform c2Request emptyStats)
          (analyzeQueryIntent c2Request.query) (performanceRequirements c2Request.priority)
          emptyStats c2Request :=
  ⟨(C2_preference_ignored_amended c2Request emptyStats (some "ragflow")).1,
   (C2_preference_ignored_amended c2Request emptyStats (some "ragflow")).2 "dify" (by decide)⟩

/-- C3 (amended): the orchestrator's stages run in the order Validate,
RateLimiter admission, Cache lookup, DecisionEngine, QoS, dispatch, cache
write, metrics update — every run's trace is a prefix of this sequence —
and a request answered from the cache has already passed rate-limiter
admission: its trace is exactly validate, rateLimit, cacheLookup. -/
theorem C3_pipeline_order_amended :
    ∀ o : GatewayOracle,
      (processUnifiedQuery o).1 <+: fullPipelineStages
      ∧ ∀ resp, (processUnifiedQuery o).2 = GatewayOutcome.cachedResponse resp →
          (processUnifiedQuery o).1 = [Stage.validate, Stage.rateLimit, Stage.cacheLookup] := by
  intro o
  unfold processUnifiedQuery
  by_cases hv : o.validationOk = false
  · rw [if_pos hv]
    exact ⟨⟨[.rateLimit, .cacheLookup, .decision, .qos, .dispatch, .cacheWrite, .metricsUpdate],
      rfl⟩, fun resp h => by simp at h⟩
  · rw [if_neg hv]
    by_cases hrl : o.rateAllowed = false
    · rw [if_pos hrl]
      exact ⟨⟨[.cacheLookup, .decision, .qos, .dispatch, .cacheWrite, .metricsUpdate], rfl⟩,
        fun resp h => by simp at h⟩
    · rw [if_neg hrl]
      cases hc : getCachedResponse o.cacheRead with
      | some r =>
        exact ⟨⟨[.decision, .qos, .dispatch, .cacheWrite, .metricsUpdate], rfl⟩,
          fun resp _ => rfl⟩
      | none =>
        by_cases hq : o.qosBlocks = true
        · rw [if_pos hq]
          exact ⟨⟨[.dispatch, .cacheWrite, .metricsUpdate], rfl⟩, fun resp h => by simp at h⟩
        · rw [if_neg hq]
          cases hd : o.dispatchOutcome with
          | error code =>
            exact ⟨⟨[.cacheWrite, .metricsUpdate], rfl⟩, fun resp h => by simp at h⟩
          | ok res =>
            exact ⟨⟨[], by simp⟩, fun resp h => by simp at h⟩

/-- The response stored in the cache for the C3 scenario. -/
def c3HitResponse : UnifiedQueryResponse :=
  { query := "q", answer := "a", platform_used := "dify", processing_time_ms := 1 }

/-- Oracle of a run in which the cache holds an answer: validation passes,
the rate limiter admits, and the cache read hits. -/
def c3Oracle : GatewayOracle :=
  { request := { query := "q" }, stats := emptyStats, validationOk := true,
    rateAllowed := true, cacheRead := .hit c3HitResponse, qosBlocks := false,
    dispatchOutcome := Except.error 500, cacheWriteOutcome := Except.ok (),
    requestId := "rid", processingTimeMs := 1 }

/-- C3 counterexample: a cache-answered request's trace is validate,
rateLimit, cacheLookup — rate-limiter admission ran, and it ran before the
cache lookup, contradicting the claimed Validate → Cache → RateLimiter order
and the claim that a cache-answered request never reaches the rate limiter. -/
theorem C3_rate_limit_before_cache :
    (processUnifiedQuery c3Oracle).1 = [Stage.validate, Stage.rateLimit, Stage.cacheLookup]
    ∧ Stage.rateLimit ∈ (processUnifiedQuery c3Oracle).1
    ∧ isCachedOutcome (processUnifiedQuery c3Oracle).2 = true := by decide

/-- C3 witness: the amended theorem applied to the concrete cache-hit oracle. -/
theorem C3_pipeline_order_witness :
    (processUnifiedQuery c3Oracle).1 = [Stage.validate, Stage.rateLimit, Stage.cacheLookup] :=
  (C3_pipeline_order_amended c3Oracle).2 c3HitResponse rfl

/-- C4 (amended): when every registered backend's adapter call raises,
dispatch never succeeds at any recursion depth — but it does not produce a
diagnostic aggregate either: the mutually recursive failover re-enters
already-attempted backends (see the counterexample) and the terminal error
is the bare HTTP 503 "all platforms unavailable", carrying no list of
attempted backends or per-backend reasons. -/
theorem C4_failover_amended :
    (∀ (fails : String → Bool) (fuel : Nat) (p : String),
        (∀ q, registeredPlatforms.contains q = true → fails q = true) →
        isDispatchSuccess (execPlatformQuery fails fuel p).1 = false)
    ∧ (execPlatformQuery (fun _ => true) 6 "dify").1 = DispatchResult.httpExn 503 :=
  ⟨fun fails fuel p h => execPlatformQuery_noSuccess fails h fuel p, by decide⟩

/-- C4 counterexample: with every backend failing, the attempt list of a
dispatch starting at `dify` contains `dify` at least twice — a backend is
attempted more than once, contradicting the exactly-once claim. -/
theorem C4_backend_attempted_twice :
    2 ≤ ((execPlatformQuery (fun _ => true) 6 "dify").2.count "dify")
    ∧ isDispatchSuccess (execPlatformQuery (fun _ => true) 6 "dify").1 = false := by decide

/-- C4 witness: the amended theorem applied to the all-failing adapter map at
depth 3 starting from `ragflow`. -/
theorem C4_failover_witness :
    isDispatchSuccess (execPlatformQuery (fun _ => true) 3 "ragflow").1 = false :=
  C4_failover_amended.1 (fun _ => true) 3 "ragflow" (fun _ _ => rfl)

/-- C5 (amended): the Redis cache manager keys on all five components —
agreement on query, language, response shape, priority and context yields
the same key, for any digest function — but the cachetools manager keys only
on (query, language, response shape): its key data is unchanged by priority
and context (see the counterexample), while the simple manager keys on the
whole request object, metadata included. -/
theorem C5_cache_key_amended :
    (∀ (digest : String → String) (r1 r2 : UnifiedQueryRequest),
        r1.query = r2.query → r1.language = r2.language →
        r1.responseFormat = r2.responseFormat → r1.priority = r2.priority →
        r1.context = r2.context →
        redisCacheKey digest r1 = redisCacheKey digest r2)
    ∧ (∀ r1 r2 : UnifiedQueryRequest,
        r1.query = r2.query → r1.language = r2.language →
        r1.responseFormat = r2.responseFormat →
        cacheToolsKeyData r1 = cacheToolsKeyData r2) := by
  constructor
  · intro digest r1 r2 hq hl hf hp hc
    unfold redisCacheKey redisKeyData
    rw [hq, hl, hf, hp, hc]
  · intro r1 r2 hq hl hf
    unfold cacheToolsKeyData
    rw [hq, hl, hf]

/-- C5 counterexample: two requests that differ only in priority class (one
normal, one critical) produce identical cachetools key data, so they share a
cache entry under the cachetools manager — priority never enters that key. -/
theorem C5_priority_shares_cache_key :
    ({ query := "问题", priority := QueryPriority.normal } : UnifiedQueryRequest).priority
      ≠ ({ query := "问题", priority := QueryPriority.critical } : UnifiedQueryRequest).priority
    ∧ cacheToolsKeyData { query := "问题", priority := QueryPriority.normal }
        = cacheToolsKeyData { query := "问题", priority := QueryPriority.critical } := by decide

/-- Request pair for the C5 witness: equal on all five key components,
different metadata. -/
def c5RequestA : UnifiedQueryRequest :=
  { query := "政策", context := ["a"], metadata := [("k", "v1")] }

/-- Same five key components as `c5RequestA`, different metadata. -/
def c5RequestB : UnifiedQueryRequest :=
  { query := "政策", context := ["a"], metadata := [("k", "v2")] }

/-- C5 witness: the amended theorem applied to the concrete pair: same five
components give the same Redis key (here with the identity digest) and the
same cachetools key data. -/
theorem C5_cache_key_witness :
    redisCacheKey (fun s => s) c5RequestA = redisCacheKey (fun s => s) c5RequestB
    ∧ cacheToolsKeyData c5RequestA = cacheToolsKeyData c5RequestB :=
  ⟨C5_cache_key_amended.1 (fun s => s) c5RequestA c5RequestB rfl rfl rfl rfl rfl,
   C5_cache_key_amended.2 c5RequestA c5RequestB rfl rfl rfl⟩

/-- C6 (amended): the rate limiter is a priority-independent window counter —
it rejects immediately (returns `false`, no waiting) exactly when the
post-reset counter has reached the configured ceiling, and an admitted
request bumps the counter while staying within the ceiling; but after
admission the QoS manager's `put` into the bounded critical queue blocks
exactly when that queue already holds its capacity of 100 items, so excess
critical requests wait instead of failing fast (see the counterexample). -/
theorem C6_admission_amended :
    ∀ (now : Nat) (info : PlatformRateInfo),
      ((isRequestAllowed now info).1 = false ↔
         info.maxLimit ≤ (rateWindowReset now info).currentRequests)
      ∧ ((isRequestAllowed now info).1 = true →
          (isRequestAllowed now info).2.currentRequests
            = (rateWindowReset now info).currentRequests + 1
          ∧ (isRequestAllowed now info).2.currentRequests ≤ info.maxLimit)
      ∧ (∀ qsize : Nat,
          qosQueuePutBlocks qsize (priorityQueueMaxsize QueryPriority.critical) = true
            ↔ 100 ≤ qsize) := by
  intro now info
  have hml : (rateWindowReset now info).maxLimit = info.maxLimit := by
    unfold rateWindowReset
    by_cases h : info.lastReset + info.windowSeconds ≤ now
    · rw [if_pos h]
    · rw [if_neg h]
  unfold isRequestAllowed
  by_cases h : (rateWindowReset now info).maxLimit ≤ (rateWindowReset now info).currentRequests
  · rw [if_pos h]
    refine ⟨⟨fun _ => hml ▸ h, fun _ => rfl⟩, fun habs => by simp at habs, fun qsize => ?_⟩
    simp [qosQueuePutBlocks, priorityQueueMaxsize]
  · rw [if_neg h]
    rw [hml] at h
    refine ⟨⟨fun habs => by simp at habs, fun hcontra => absurd (hml ▸ hcontra) h⟩,
      fun _ => ⟨rfl, ?_⟩, fun qsize => ?_⟩
    · show (rateWindowReset now info).currentRequests + 1 ≤ info.maxLimit
      omega
    simp [qosQueuePutBlocks, priorityQueueMaxsize]

/-- C6 counterexample: the 101st concurrent critical request — window counter
at 100 of 1000, critical queue at its capacity 100 — is admitted by the rate
limiter (no `RateLimitExceeded`), and the subsequent QoS `put` blocks on the
full queue: the excess critical request waits instead of failing fast. -/
theorem C6_critical_blocks_on_full_queue :
    (isRequestAllowed 30
      { currentRequests := 100, lastReset := 0, maxLimit := 1000, windowSeconds := 60 }).1 = true
    ∧ qosQueuePutBlocks 100 (priorityQueueMaxsize QueryPriority.critical) = true := by decide

/-- C6 witness: the amended theorem applied to a window counter already at
its ceiling: admission returns false immediately. -/
theorem C6_admission_witness :
    (isRequestAllowed 0
      { currentRequests := 1000, lastReset := 0, maxLimit := 1000, windowSeconds := 60 }).1
      = false :=
  (C6_admission_amended 0
    { currentRequests := 1000, lastReset := 0, maxLimit := 1000, windowSeconds := 60 }).1.mpr
    (by decide)

/-- C7 (confirmed): cache failures never fail a request.  A failing cache
write leaves the whole run unchanged (the write outcome is swallowed inside
`cache_response`); a failing cache read behaves exactly like a miss (the
read exception is caught inside `get_cached_response`); and whenever
dispatch produces a result, the gateway returns the normally built response
to the caller. -/
theorem C7_cache_failure_nonfatal :
    (∀ (o : GatewayOracle) (w1 w2 : Except String Unit),
        processUnifiedQuery { o with cacheWriteOutcome := w1 }
          = processUnifiedQuery { o with cacheWriteOutcome := w2 })
    ∧ (∀ (o : GatewayOracle) (e : String),
        processUnifiedQuery { o with cacheRead := CacheReadOutcome.err e }
          = processUnifiedQuery { o with cacheRead := CacheReadOutcome.miss })
    ∧ (∀ (o : GatewayOracle) (res : PlatformResult),
        o.validationOk = true → o.rateAllowed = true →
        getCachedResponse o.cacheRead = none → o.qosBlocks = false →
        o.dispatchOutcome = Except.ok res →
        (processUnifiedQuery o).2
          = GatewayOutcome.response (buildUnifiedResponse o.request
              (selectBestPlatform o.request o.stats) res o.requestId o.processingTimeMs)) := by
  refine ⟨fun o w1 w2 => rfl, fun o e => rfl, fun o res hv hr hc hq hd => ?_⟩
  unfold processUnifiedQuery
  rw [hv, hc, hq, hd, hr]
  simp

/-- Platform result served by the backend in the C7 witness run. -/
def c7Result : PlatformResult :=
  { platform := "dify", answer := some "好的", confidence := some (9/10) }

/-- Oracle for the C7 witness: a normal run whose cache write fails. -/
def c7Oracle : GatewayOracle :=
  { request := { query := "查询" }, stats := emptyStats, validationOk := true,
    rateAllowed := true, cacheRead := .miss, qosBlocks := false,
    dispatchOutcome := Except.ok c7Result,
    cacheWriteOutcome := Except.error "redis down", requestId := "rid",
    processingTimeMs := 7 }

/-- C7 witness: the theorem applied to a concrete run whose cache write
raises: the caller still receives the normally built response. -/
theorem C7_cache_failure_witness :
    (processUnifiedQuery c7Oracle).2
      = GatewayOutcome.response (buildUnifiedResponse c7Oracle.request
          (selectBestPlatform c7Oracle.request c7Oracle.stats)
          c7Result c7Oracle.requestId c7Oracle.processingTimeMs) :=
  C7_cache_failure_nonfatal.2.2 c7Oracle c7Result rfl rfl rfl rfl rfl

/-- C8 (confirmed): a unified response built from a platform result carrying
error metadata satisfies the invariant: confidence is 0 (hence within
[0, 1]), the original query is echoed, the metadata marks the error, and the
answer is the non-empty human-readable fallback message naming the error. -/
theorem C8_error_response_invariant :
    ∀ (req : UnifiedQueryRequest) (platformUsed : String) (result : PlatformResult)
      (requestId : String) (t : ℤ) (e : String),
      result.error = some e →
      (buildUnifiedResponse req platformUsed result requestId t).confidence_score = 0
      ∧ 0 ≤ (buildUnifiedResponse req platformUsed result requestId t).confidence_score
      ∧ (buildUnifiedResponse req platformUsed result requestId t).confidence_score ≤ 1
      ∧ (buildUnifiedResponse req platformUsed result requestId t).query = req.query
      ∧ (buildUnifiedResponse req platformUsed result requestId t).metadata.error = true
      ∧ (buildUnifiedResponse req platformUsed result requestId t).answer
          = "AI处理时遇到错误: " ++ e
      ∧ (buildUnifiedResponse req platformUsed result requestId t).answer ≠ "" := by
  intro req platformUsed result requestId t e h
  unfold buildUnifiedResponse
  rw [h]
  refine ⟨rfl, le_refl 0, ?_, rfl, rfl, rfl, ?_⟩
  · show (0:ℚ) ≤ 1
    norm_num
  · exact stringAppend_ne_empty _ _ (by decide)

/-- C8 witness: the theorem applied at a concrete error result. -/
theorem C8_error_response_witness :
    (buildUnifiedResponse { query := "问题" } "dify"
        { platform := "dify", error := some "超时" } "rid" 5).metadata.error = true
    ∧ (buildUnifiedResponse { query := "问题" } "dify"
        { platform := "dify", error := some "超时" } "rid" 5).answer ≠ "" :=
  ⟨(C8_error_response_invariant { query := "问题" } "dify"
      { platform := "dify", error := some "超时" } "rid" 5 "超时" rfl).2.2.2.2.1,
   (C8_error_response_invariant { query := "问题" } "dify"
      { platform := "dify", error := some "超时" } "rid" 5 "超时" rfl).2.2.2.2.2.2⟩

/-- C9 (confirmed): after every metrics update the per-backend history holds
at most 100 entries — exactly `min (previous + 1) 100` — and the retained
entries are a suffix of the appended history: the oldest entries are the
ones discarded. -/
theorem C9_metrics_history_bounded :
    ∀ (history : List PerfMetrics) (entry : PerfMetrics),
      (updateMetricsHistory history entry).length ≤ 100
      ∧ (updateMetricsHistory history entry).length = min (history.length + 1) 100
      ∧ updateMetricsHistory history entry <:+ history ++ [entry] := by
  intro history entry
  unfold updateMetricsHistory
  have hl : (history ++ [entry]).length = history.length + 1 := by simp
  by_cases h : 100 < (history ++ [entry]).length
  · rw [if_pos h]
    have hlen : ((history ++ [entry]).drop ((history ++ [entry]).length - 100)).length = 100 := by
      rw [List.length_drop]
      omega
    refine ⟨by omega, by omega, List.drop_suffix _ _⟩
  · rw [if_neg h]
    exact ⟨by omega, by omega, List.suffix_refl _⟩

/-- C10 (confirmed): each concrete adapter's `execute_query` catches every
exception raised while contacting its backend and converts it into a result
dict whose `error` key holds the failure message and whose `platform` key
names the adapter; no exception propagates (the function is total on every
backend outcome), and a successful contact never carries an `error` key. -/
theorem C10_adapter_error_conversion :
    (∀ e : String, (difyExecuteQuery (Except.error e)).error = some e
        ∧ (difyExecuteQuery (Except.error e)).platform = "dify")
    ∧ (∀ c : Except String DifyRaw, (difyExecuteQuery c).platform = "dify")
    ∧ (∀ r : DifyRaw, (difyExecuteQuery (Except.ok r)).error = none)
    ∧ (∀ e : String, (ragflowExecuteQuery (Except.error e)).error = some e
        ∧ (ragflowExecuteQuery (Except.error e)).platform = "ragflow")
    ∧ (∀ c : Except String RagflowRaw, (ragflowExecuteQuery c).platform = "ragflow")
    ∧ (∀ r : RagflowRaw, (ragflowExecuteQuery (Except.ok r)).error = none)
    ∧ (∀ e : String, (n8nExecuteQuery (Except.error e)).error = some e
        ∧ (n8nExecuteQuery (Except.error e)).platform = "n8n")
    ∧ (∀ c : Except String N8nRaw, (n8nExecuteQuery c).platform = "n8n")
    ∧ (∀ r : N8nRaw, (n8nExecuteQuery (Except.ok r)).error = none) := by
  refine ⟨fun e => ⟨rfl, rfl⟩, fun c => ?_, fun r => rfl,
    fun e => ⟨rfl, rfl⟩, fun c => ?_, fun r => rfl,
    fun e => ⟨rfl, rfl⟩, fun c => ?_, fun r => rfl⟩
  · cases c <;> rfl
  · cases c <;> rfl
  · cases c <;> rfl
